import Mathlib

/-!
Verification of the ECMASynth polyphonic synthesizer engine
(ecmasynth-client), against its natural-language specification.

The development shallowly embeds the engine code:
* `SynthParams` mirrors the parameter record used throughout
  `Synthesizer.tsx`, `Controls.tsx` and `PresetManager.tsx`
  (the `synth.types.ts` module itself is not in the tree; the record's
  shape is read off every use site).
* `VoiceWithEffects` mirrors the mutable per-voice node state of the
  `VoiceWithEffects` class and its `update*` methods.
* `EngineState` mirrors the React component state of `Synthesizer`
  (`paramsRef`, `activeNotesRef`, the PolySynth envelope option, and the
  live voice list) with explicit state passing.
* Preset save/load mirrors `PresetManager.tsx`, with JSON-serialized
  fields represented by a `Serialized` wrapper on which `JSON.parse`
  either succeeds or throws.

JavaScript numbers are modelled as `ℚ` (exact for every slider value and
constant involved); the one transcendental computation, the filter's
exponential frequency mapping, is modelled over `ℝ`.
-/

namespace ECMASynth

/-- Envelope sub-record of `SynthParams` (`attack`, `decay`, `sustain`,
`release`), as used by `Controls.tsx` and `Synthesizer.tsx`. -/
structure Envelope where
  attack : ℚ
  decay : ℚ
  sustain : ℚ
  release : ℚ
deriving DecidableEq, Repr

/-- Oscillator sub-record (`count`, `spread`), as used by
`updateOscillator` and the `oscillator` branch of `updateParams`. -/
structure OscillatorParams where
  count : ℚ
  spread : ℚ
deriving DecidableEq, Repr

/-- Filter sub-record (`frequency`, `rolloff`), as used by the `filter`
branch of `updateParams`. -/
structure FilterParams where
  frequency : ℚ
  rolloff : ℚ
deriving DecidableEq, Repr

/-- Delay sub-record (`wet`, `delayTime`, `feedback`). -/
structure DelayParams where
  wet : ℚ
  delayTime : ℚ
  feedback : ℚ
deriving DecidableEq, Repr

/-- Reverb sub-record (`wet`, `decay`, `preDelay`). -/
structure ReverbParams where
  wet : ℚ
  decay : ℚ
  preDelay : ℚ
deriving DecidableEq, Repr

/-- Gain/limiter sub-record (`gain`, `threshold`), as used by
`updateGainAndLimiter`. -/
structure GainLimiterParams where
  gain : ℚ
  threshold : ℚ
deriving DecidableEq, Repr

/-- Volume sub-record (`level`). -/
structure VolumeParams where
  level : ℚ
deriving DecidableEq, Repr

/-- The full `SynthParams` parameter record (the engine's stored model). -/
structure SynthParams where
  envelope : Envelope
  oscillator : OscillatorParams
  filter : FilterParams
  delay : DelayParams
  reverb : ReverbParams
  gainLimiter : GainLimiterParams
  volume : VolumeParams
deriving DecidableEq, Repr

/-- A concrete in-range parameter record, used as input for witnesses and
counterexamples. -/
def sampleParams : SynthParams :=
  { envelope := ⟨1/100, 1/10, 1/2, 1⟩
    oscillator := ⟨2, 15⟩
    filter := ⟨2000, -24⟩
    delay := ⟨1/5, 1/4, 3/10⟩
    reverb := ⟨3/10, 2, 1/100⟩
    gainLimiter := ⟨1/2, -12⟩
    volume := ⟨-6⟩ }

/-! ### The `VoiceWithEffects` per-voice node state

The `VoiceWithEffects` class owns one Tone.js node per effect stage; the
structure below records the control values those nodes hold, and each
`update*` method below is the corresponding class method as a state
transformer. -/

/-- Control state of the voice's `Tone.FeedbackDelay` node. -/
structure DelayNode where
  delayTime : ℚ
  feedback : ℚ
  wet : ℚ
deriving DecidableEq, Repr

/-- Control state of the voice's `Tone.Reverb` node. -/
structure ReverbNode where
  decay : ℚ
  preDelay : ℚ
  wet : ℚ
deriving DecidableEq, Repr

/-- Control state of the voice's `Tone.Filter` node.  `frequency` is real
valued because `updateFilter` computes it with `Math.pow`. -/
structure FilterNode where
  frequency : ℝ
  rolloff : ℚ
  q : ℚ

/-- Control state of the voice's fat oscillator. -/
structure OscillatorNode where
  waveType : String
  count : ℤ
  spread : ℚ
deriving DecidableEq, Repr

/-- Mutable control state of one `VoiceWithEffects` instance
(`Synthesizer.tsx`): the delay, reverb, filter, gain, limiter, channel
and oscillator settings of its node graph. -/
structure VoiceWithEffects where
  delay : DelayNode
  reverb : ReverbNode
  filter : FilterNode
  gain : ℚ
  limiterThreshold : ℚ
  voiceChannelVolume : ℚ
  oscillator : OscillatorNode

/-- The fixed wet-attenuation factor `wetScale = 0.7` of
`VoiceWithEffects.updateEffects`. -/
def wetScale : ℚ := 7/10

/-- `updateEffects(params)` (`Synthesizer.tsx` lines 83-99): re-applies
the delay and reverb settings with `feedback` and `wet` scaled by
`wetScale`, and sets the filter frequency to
`2000 + params.envelope.attack * 2000`. -/
noncomputable def VoiceWithEffects.updateEffects (v : VoiceWithEffects)
    (params : SynthParams) : VoiceWithEffects :=
  { v with
    delay :=
      { delayTime := params.delay.delayTime
        feedback := params.delay.feedback * wetScale
        wet := params.delay.wet * wetScale }
    reverb :=
      { decay := params.reverb.decay
        preDelay := params.reverb.preDelay
        wet := params.reverb.wet * wetScale }
    filter :=
      { v.filter with frequency := ((2000 + params.envelope.attack * 2000 : ℚ) : ℝ) } }

/-- `updateVolume(value)`: sets the per-voice channel volume to
`Math.min(value, 0)`. -/
def VoiceWithEffects.updateVolume (v : VoiceWithEffects) (value : ℚ) :
    VoiceWithEffects :=
  { v with voiceChannelVolume := min value 0 }

/-- JavaScript's `Math.round`: nearest integer, ties toward `+∞`. -/
def jround (q : ℚ) : ℤ := ⌊q + 1/2⌋

/-- `updateOscillator({count, spread})` (`VoiceWithEffects`, full
version of the class): `validCount = Math.max(1, Math.min(8,
Math.round(count)))`, `validSpread = Math.max(0, Math.min(50, spread))`,
applied to a `fatsawtooth` oscillator. -/
def VoiceWithEffects.updateOscillator (v : VoiceWithEffects)
    (count spread : ℚ) : VoiceWithEffects :=
  { v with
    oscillator :=
      { waveType := "fatsawtooth"
        count := max 1 (min 8 (jround count))
        spread := max 0 (min 50 spread) } }

/-- `minFreq = 20` of `updateFilter`. -/
noncomputable def minFreq : ℝ := 20

/-- `maxFreq = 20000` of `updateFilter`. -/
noncomputable def maxFreq : ℝ := 20000

/-- `freqScale = Math.log2(maxFreq / minFreq)` of `updateFilter`. -/
noncomputable def freqScale : ℝ := Real.logb 2 (maxFreq / minFreq)

/-- `normalizedFreq = minFreq * Math.pow(2, (frequency / maxFreq) *
freqScale)`: the exponential mapping of a linear control value onto the
cutoff range. -/
noncomputable def normalizedFreq (frequency : ℚ) : ℝ :=
  minFreq * (2 : ℝ) ^ (((frequency : ℝ) / maxFreq) * freqScale)

/-- `updateFilter({frequency, rolloff})`: stores the exponentially mapped
frequency, the given rolloff, and `Q = 2`. -/
noncomputable def VoiceWithEffects.updateFilter (v : VoiceWithEffects)
    (frequency rolloff : ℚ) : VoiceWithEffects :=
  { v with
    filter :=
      { frequency := normalizedFreq frequency
        rolloff := rolloff
        q := 2 } }

/-- `updateGainAndLimiter({gain, threshold})`: applied directly. -/
def VoiceWithEffects.updateGainAndLimiter (v : VoiceWithEffects)
    (gain threshold : ℚ) : VoiceWithEffects :=
  { v with gain := gain, limiterThreshold := threshold }

/-! ### Rolloff sanitization (`updateParams`, `filter` branch)

`const validRolloffs = [-12, -24, -48, -96];
 const rolloff = validRolloffs.reduce((prev, curr) =>
   Math.abs(curr - r) < Math.abs(prev - r) ? curr : prev);` -/

/-- The legal discrete rolloff values, in the source's order. -/
def validRolloffs : List ℚ := [-12, -24, -48, -96]

/-- The `reduce` callback: `(prev, curr) => |curr - r| < |prev - r| ?
curr : prev`. -/
def nearestStep (r prev curr : ℚ) : ℚ :=
  if |curr - r| < |prev - r| then curr else prev

/-- JavaScript's `Array.prototype.reduce` with no initial value: seeds
with the first element and folds over the rest (`none` on `[]`). -/
def reduce1 (f : ℚ → ℚ → ℚ) : List ℚ → Option ℚ
  | [] => none
  | x :: xs => some (xs.foldl f x)

/-- The rolloff sanitizer of `updateParams`' `filter` branch. -/
def snapRolloff (r : ℚ) : ℚ :=
  (reduce1 (nearestStep r) validRolloffs).getD r

/-! ### The stored parameter model and `updateParams`

`updateParams(category, parameter, value)` replaces one field of the
stored record: `{...prev, [category]: {...prev[category], [parameter]:
value}}`.  The `(category, parameter)` pairs that occur in the client are
enumerated by `ParamField`. -/

/-- The `category` argument of `updateParams` (`keyof SynthParams`). -/
inductive Category where
  | envelope | oscillator | filter | delay | reverb | gainLimiter | volume
deriving DecidableEq, Repr

/-- One `(category, parameter)` pair of the stored record. -/
inductive ParamField where
  | envelopeAttack | envelopeDecay | envelopeSustain | envelopeRelease
  | oscillatorCount | oscillatorSpread
  | filterFrequency | filterRolloff
  | delayWet | delayDelayTime | delayFeedback
  | reverbWet | reverbDecay | reverbPreDelay
  | gainLimiterGain | gainLimiterThreshold
  | volumeLevel
deriving DecidableEq, Repr

/-- The category a field belongs to. -/
def ParamField.category : ParamField → Category
  | .envelopeAttack | .envelopeDecay | .envelopeSustain | .envelopeRelease =>
      Category.envelope
  | .oscillatorCount | .oscillatorSpread => Category.oscillator
  | .filterFrequency | .filterRolloff => Category.filter
  | .delayWet | .delayDelayTime | .delayFeedback => Category.delay
  | .reverbWet | .reverbDecay | .reverbPreDelay => Category.reverb
  | .gainLimiterGain | .gainLimiterThreshold => Category.gainLimiter
  | .volumeLevel => Category.volume

/-- The record update `{...prev, [category]: {...prev[category],
[parameter]: value}}` performed by `updateParams` on the stored model. -/
def setField (p : SynthParams) : ParamField → ℚ → SynthParams
  | .envelopeAttack, v => { p with envelope := { p.envelope with attack := v } }
  | .envelopeDecay, v => { p with envelope := { p.envelope with decay := v } }
  | .envelopeSustain, v => { p with envelope := { p.envelope with sustain := v } }
  | .envelopeRelease, v => { p with envelope := { p.envelope with release := v } }
  | .oscillatorCount, v => { p with oscillator := { p.oscillator with count := v } }
  | .oscillatorSpread, v => { p with oscillator := { p.oscillator with spread := v } }
  | .filterFrequency, v => { p with filter := { p.filter with frequency := v } }
  | .filterRolloff, v => { p with filter := { p.filter with rolloff := v } }
  | .delayWet, v => { p with delay := { p.delay with wet := v } }
  | .delayDelayTime, v => { p with delay := { p.delay with delayTime := v } }
  | .delayFeedback, v => { p with delay := { p.delay with feedback := v } }
  | .reverbWet, v => { p with reverb := { p.reverb with wet := v } }
  | .reverbDecay, v => { p with reverb := { p.reverb with decay := v } }
  | .reverbPreDelay, v => { p with reverb := { p.reverb with preDelay := v } }
  | .gainLimiterGain, v => { p with gainLimiter := { p.gainLimiter with gain := v } }
  | .gainLimiterThreshold, v => { p with gainLimiter := { p.gainLimiter with threshold := v } }
  | .volumeLevel, v => { p with volume := { p.volume with level := v } }

/-- Projection of one field of the stored record. -/
def getField (p : SynthParams) : ParamField → ℚ
  | .envelopeAttack => p.envelope.attack
  | .envelopeDecay => p.envelope.decay
  | .envelopeSustain => p.envelope.sustain
  | .envelopeRelease => p.envelope.release
  | .oscillatorCount => p.oscillator.count
  | .oscillatorSpread => p.oscillator.spread
  | .filterFrequency => p.filter.frequency
  | .filterRolloff => p.filter.rolloff
  | .delayWet => p.delay.wet
  | .delayDelayTime => p.delay.delayTime
  | .delayFeedback => p.delay.feedback
  | .reverbWet => p.reverb.wet
  | .reverbDecay => p.reverb.decay
  | .reverbPreDelay => p.reverb.preDelay
  | .gainLimiterGain => p.gainLimiter.gain
  | .gainLimiterThreshold => p.gainLimiter.threshold
  | .volumeLevel => p.volume.level

/-- The declared `[min, max]` range of a field, from `PARAM_RANGES` in
`Controls.tsx` (`none` for the categories `Controls.tsx` does not list:
oscillator, filter, gain/limiter). -/
def fieldRange : ParamField → Option (ℚ × ℚ)
  | .envelopeAttack => some (0, 2)
  | .envelopeDecay => some (0, 2)
  | .envelopeSustain => some (0, 1)
  | .envelopeRelease => some (0, 2)
  | .reverbWet => some (0, 1)
  | .reverbDecay => some (0, 10)
  | .reverbPreDelay => some (0, 1/10)
  | .delayWet => some (0, 1)
  | .delayDelayTime => some (0, 1)
  | .delayFeedback => some (0, 9/10)
  | .volumeLevel => some (-60, 0)
  | _ => none

/-! ### The `Synthesizer` component state

Explicit state passing for the component's refs and the PolySynth:
`paramsRef.current`, the `activeNotesRef` insertion-ordered map from note
name to the parameter snapshot captured at note start, the envelope
option set on the PolySynth (used when a new voice is triggered), and the
live `_voices` list. -/

/-- State of the initialized `Synthesizer` component. -/
structure EngineState where
  params : SynthParams
  activeNotes : List (String × SynthParams)
  polyEnvelope : Envelope
  liveVoices : List VoiceWithEffects

/-- JavaScript `Map.prototype.set`: replaces the value in place if the
key is present, else appends the entry. -/
def mapSet (m : List (String × SynthParams)) (k : String)
    (v : SynthParams) : List (String × SynthParams) :=
  match m with
  | [] => [(k, v)]
  | (k', v') :: rest =>
      if k' = k then (k, v) :: rest else (k', v') :: mapSet rest k v

/-- `handleNoteStart(note)` (`Synthesizer.tsx` lines 190-212), state
component: stores `{...paramsRef.current}` as the note's snapshot in
`activeNotesRef` (the attack trigger and the found-voice `updateEffects`
push act on the Tone.js voice pool, modelled separately). -/
def handleNoteStart (st : EngineState) (note : String) : EngineState :=
  { st with activeNotes := mapSet st.activeNotes note st.params }

/-- `updateParams(category, parameter, value)` (`Synthesizer.tsx` lines
237-267 and the full version with the oscillator / filter / gainLimiter
branches): stores the raw value into the model, re-sets the PolySynth
envelope when the category is `envelope`, and pushes category-specific
sanitized updates into every live voice. -/
noncomputable def updateParams (st : EngineState) (fld : ParamField)
    (value : ℚ) : EngineState :=
  let newParams := setField st.params fld value
  { params := newParams
    activeNotes := st.activeNotes
    polyEnvelope :=
      if fld.category = Category.envelope then newParams.envelope
      else st.polyEnvelope
    liveVoices :=
      match fld.category with
      | Category.volume =>
          st.liveVoices.map (fun v => v.updateVolume value)
      | Category.oscillator =>
          st.liveVoices.map (fun v =>
            v.updateOscillator newParams.oscillator.count
              newParams.oscillator.spread)
      | Category.filter =>
          st.liveVoices.map (fun v =>
            v.updateFilter newParams.filter.frequency
              (snapRolloff newParams.filter.rolloff))
      | Category.gainLimiter =>
          st.liveVoices.map (fun v =>
            v.updateGainAndLimiter newParams.gainLimiter.gain
              newParams.gainLimiter.threshold)
      | _ => st.liveVoices }

/-- A concrete engine state over `sampleParams`, with one sounding note
and no live voice objects, used by witnesses and counterexamples. -/
def sampleEngine : EngineState :=
  { params := sampleParams
    activeNotes := [("C4", sampleParams)]
    polyEnvelope := sampleParams.envelope
    liveVoices := [] }

/-! ### Preset save and load (`PresetManager.tsx`)

A preset record stores string-encoded sub-objects.  `Serialized α`
abstracts one such string: `JSON.stringify` of a value produces
`Serialized.ok`, and `JSON.parse` succeeds exactly on `ok` and throws on
a malformed encoding. -/

/-- A string field holding a JSON encoding of `α`: either a well-formed
encoding of a value, or malformed text on which `JSON.parse` throws. -/
inductive Serialized (α : Type) where
  | ok (value : α)
  | malformed (text : String)
deriving DecidableEq, Repr

/-- `JSON.parse` on a serialized field: the decoded value, or `none`
when the call throws. -/
def jsonParse {α : Type} : Serialized α → Option α
  | .ok v => some v
  | .malformed _ => none

/-- The `CreateSynthPresetDto` built by `handleSavePreset`. -/
structure CreateSynthPresetDto where
  name : String
  envelope : Serialized Envelope
  reverb : Serialized ReverbParams
  delay : Serialized DelayParams
  volume : Serialized VolumeParams
  deletionPassword : String
deriving DecidableEq, Repr

/-- A stored `SynthPreset` record, as consumed by `handleLoadPreset`. -/
structure SynthPresetRec where
  id : ℤ
  name : String
  envelope : Serialized Envelope
  reverb : Serialized ReverbParams
  delay : Serialized DelayParams
  volume : Serialized VolumeParams
deriving DecidableEq, Repr

/-- The server-side record created from a save DTO (the serialized
fields are stored verbatim). -/
def toRecord (recId : ℤ) (dto : CreateSynthPresetDto) : SynthPresetRec :=
  { id := recId
    name := dto.name
    envelope := dto.envelope
    reverb := dto.reverb
    delay := dto.delay
    volume := dto.volume }

/-- `handleSavePreset` (`PresetManager.tsx` lines 242-263): serializes
the current `envelope`, `reverb`, `delay` and `volume` sub-records with
`JSON.stringify` into the DTO. -/
def handleSavePreset (presetName : String) (currentParams : SynthParams)
    (deletionPassword : String) : CreateSynthPresetDto :=
  { name := presetName.trim
    envelope := Serialized.ok currentParams.envelope
    reverb := Serialized.ok currentParams.reverb
    delay := Serialized.ok currentParams.delay
    volume := Serialized.ok currentParams.volume
    deletionPassword := deletionPassword }

/-- The parameter object `handleLoadPreset` builds and passes to
`onLoadPreset`: parsed `envelope`, `reverb` and `delay`, and the
hardcoded `volume: { level: -12 }`. -/
structure LoadedParams where
  envelope : Envelope
  reverb : ReverbParams
  delay : DelayParams
  volume : VolumeParams
deriving DecidableEq, Repr

/-- The error message `handleLoadPreset` reports when a parse throws. -/
def loadErrorMsg : String := "Failed to load preset: Invalid preset data"

/-- `handleLoadPreset(preset)` (`PresetManager.tsx` lines 269-282):
parses the three serialized fields inside a try block; on success calls
`onLoadPreset` with the built record (`ok`), on any parse failure
reports the load error (`error`) and does not call `onLoadPreset`. -/
def handleLoadPreset (preset : SynthPresetRec) :
    Except String LoadedParams :=
  match jsonParse preset.envelope, jsonParse preset.reverb,
      jsonParse preset.delay with
  | some e, some r, some d =>
      Except.ok
        { envelope := e, reverb := r, delay := d, volume := { level := -12 } }
  | _, _, _ => Except.error loadErrorMsg

/-- One load interaction against the engine's current model: on success
the loaded record replaces the model (via `onLoadPreset`), on failure
the model is unchanged and the error is surfaced. -/
def loadPresetStep (current : LoadedParams) (preset : SynthPresetRec) :
    LoadedParams × Option String :=
  match handleLoadPreset preset with
  | Except.ok p => (p, none)
  | Except.error e => (current, some e)

/-! ### The voice pool

Modelled from the spec: the polyphonic voice allocator (spec section 4.3
`VoicePool`) is realized by `Tone.PolySynth`, library code that is not
part of this tree — only its caller `handleNoteStart` is.  Slots step
through `Idle → Sounding → Releasing → Idle`; `noteOn` re-triggers in
place when the note already has a Sounding voice, else takes the first
free slot or grows the pool. -/

/-- Lifecycle state of one voice slot. -/
inductive VoiceStatus where
  | idle | sounding | releasing
deriving DecidableEq, Repr

/-- One voice slot: note identity, lifecycle state, and the parameter
snapshot captured at note-on. -/
structure PoolVoice where
  note : String
  status : VoiceStatus
  snapshot : SynthParams
deriving DecidableEq, Repr

/-- Does this slot hold a Sounding voice for note `n`? -/
def isSoundingFor (n : String) (v : PoolVoice) : Bool :=
  v.note == n && v.status == VoiceStatus.sounding

/-- Number of Sounding voices for note `n`. -/
def countSounding (pool : List PoolVoice) (n : String) : Nat :=
  pool.countP (isSoundingFor n)

/-- Modelled from the spec: re-trigger the note's Sounding voice in
place, applying the new snapshot, without allocating. -/
def retrigger (pool : List PoolVoice) (n : String) (snap : SynthParams) :
    List PoolVoice :=
  pool.map (fun v =>
    if isSoundingFor n v then { v with snapshot := snap } else v)

/-- Modelled from the spec: allocate from the first free (Idle) slot, or
grow the pool when none is free. -/
def allocVoice (n : String) (snap : SynthParams) :
    List PoolVoice → List PoolVoice
  | [] => [⟨n, VoiceStatus.sounding, snap⟩]
  | v :: rest =>
      if v.status == VoiceStatus.idle then
        ⟨n, VoiceStatus.sounding, snap⟩ :: rest
      else
        v :: allocVoice n snap rest

/-- Modelled from the spec: `noteOn(note, snapshot)` — if `note` already
has a Sounding voice, re-trigger it in place; else allocate. -/
def noteOn (pool : List PoolVoice) (n : String) (snap : SynthParams) :
    List PoolVoice :=
  if pool.any (isSoundingFor n) then retrigger pool n snap
  else allocVoice n snap pool

/-- A concrete loaded-parameter record over `sampleParams`. -/
def sampleLoaded : LoadedParams :=
  { envelope := sampleParams.envelope
    reverb := sampleParams.reverb
    delay := sampleParams.delay
    volume := sampleParams.volume }

/-- A preset record whose serialized envelope field is malformed text on
which `JSON.parse` throws. -/
def malformedPreset : SynthPresetRec :=
  { id := 1
    name := "broken"
    envelope := Serialized.malformed "not a json object"
    reverb := Serialized.ok sampleParams.reverb
    delay := Serialized.ok sampleParams.delay
    volume := Serialized.ok sampleParams.volume }

/-! ## Helper lemmas -/

/-- A slot re-triggered in place still counts as Sounding for the same
note, so re-triggering does not change the Sounding count. -/
theorem countSounding_retrigger (pool : List PoolVoice) (n : String)
    (snap : SynthParams) :
    countSounding (retrigger pool n snap) n = countSounding pool n := by
  induction pool with
  | nil => rfl
  | cons v rest ih =>
    simp only [retrigger, countSounding, List.map_cons, List.countP_cons] at *
    by_cases h : isSoundingFor n v
    · have h2 : isSoundingFor n { v with snapshot := snap } = true := by
        simpa [isSoundingFor] using h
      simp [h, h2, ih]
    · simp [h, ih]

/-- Allocation (first free slot or growth) adds exactly one Sounding
voice for the allocated note: the replaced slot was Idle and counted
zero. -/
theorem countSounding_allocVoice (pool : List PoolVoice) (n : String)
    (snap : SynthParams) :
    countSounding (allocVoice n snap pool) n = countSounding pool n + 1 := by
  induction pool with
  | nil => simp [allocVoice, countSounding, List.countP_cons, isSoundingFor]
  | cons v rest ih =>
    by_cases h : (v.status == VoiceStatus.idle) = true
    · have hstatus : v.status = VoiceStatus.idle := by simpa using h
      have hv : isSoundingFor n v = false := by simp [isSoundingFor, hstatus]
      simp [allocVoice, h, countSounding, List.countP_cons, hv, isSoundingFor,
        hstatus]
    · simp only [allocVoice, if_neg h, countSounding, List.countP_cons] at *
      omega

/-- If no slot is Sounding for `n`, the Sounding count for `n` is zero. -/
theorem countSounding_eq_zero (pool : List PoolVoice) (n : String)
    (h : pool.any (isSoundingFor n) = false) : countSounding pool n = 0 := by
  rw [countSounding, List.countP_eq_zero]
  intro a ha
  have := (List.any_eq_false).mp h a ha
  simpa using this

/-- One `noteOn` call leaves exactly one Sounding voice for the note,
whether it re-triggers or allocates. -/
theorem countSounding_noteOn (pool : List PoolVoice) (n : String)
    (snap : SynthParams) (h : countSounding pool n ≤ 1) :
    countSounding (noteOn pool n snap) n = 1 := by
  unfold noteOn
  by_cases hany : pool.any (isSoundingFor n)
  · rw [if_pos hany, countSounding_retrigger]
    have hpos : 0 < countSounding pool n := by
      rw [countSounding, List.countP_pos_iff]
      simpa using List.any_eq_true.mp hany
    omega
  · rw [if_neg hany, countSounding_allocVoice,
      countSounding_eq_zero pool n (by simpa using hany)]

/-- `Map.set` followed by `Map.get` on the same key yields the stored
value. -/
theorem lookup_mapSet (m : List (String × SynthParams)) (k : String)
    (v : SynthParams) : (mapSet m k v).lookup k = some v := by
  induction m with
  | nil => simp [mapSet, List.lookup]
  | cons kv rest ih =>
    obtain ⟨k', v'⟩ := kv
    by_cases h : k' = k
    · simp [mapSet, h, List.lookup]
    · have hne : (k == k') = false := beq_eq_false_iff_ne.mpr (Ne.symm h)
      simp [mapSet, if_neg h, List.lookup, hne, ih]

/-- Writing a field of the stored record and projecting it back yields
the written value. -/
theorem getField_setField (p : SynthParams) (fld : ParamField) (v : ℚ) :
    getField (setField p fld v) fld = v := by
  cases fld <;> rfl

/-! ## Claim theorems -/

/-- C1: a second `noteOn` for a note that already has (at most) one
Sounding voice re-triggers in place and does not allocate a second
voice: after the two calls there is exactly one Sounding voice for that
note, not two. -/
theorem noteOn_twice_one_sounding (pool : List PoolVoice) (n : String)
    (s1 s2 : SynthParams) (h : countSounding pool n ≤ 1) :
    countSounding (noteOn (noteOn pool n s1) n s2) n = 1 := by
  have h1 := countSounding_noteOn pool n s1 h
  exact countSounding_noteOn _ n s2 (le_of_eq h1)

/-- Witness for C1: two `noteOn('C4')` calls from the empty pool leave
exactly one Sounding voice for `'C4'`. -/
theorem noteOn_twice_one_sounding_witness :
    countSounding ([] : List PoolVoice) "C4" ≤ 1 ∧
    countSounding
      (noteOn (noteOn [] "C4" sampleParams) "C4" sampleParams) "C4" = 1 :=
  ⟨by decide,
    noteOn_twice_one_sounding [] "C4" sampleParams sampleParams (by decide)⟩

/-- C6: `updateVolume` sets the per-voice channel trim to
`min(value, 0)`, so the trim is never above 0 dB; a request of `+10`
results in `0`. -/
theorem updateVolume_never_boosts :
    (∀ (v : VoiceWithEffects) (value : ℚ),
      (v.updateVolume value).voiceChannelVolume = min value 0 ∧
      (v.updateVolume value).voiceChannelVolume ≤ 0) ∧
    (∀ v : VoiceWithEffects, (v.updateVolume 10).voiceChannelVolume = 0) := by
  refine ⟨fun v value => ⟨rfl, min_le_right value 0⟩, fun v => ?_⟩
  show min (10 : ℚ) 0 = 0
  norm_num

/-- C7: `updateOscillator` applies the count rounded to the nearest
integer and clamped into `[1, 8]`, and the spread clamped into
`[0, 50]`; count input `12` is applied as `8` and count input `0` as
`1`. -/
theorem updateOscillator_clamps :
    (∀ (v : VoiceWithEffects) (count spread : ℚ),
      (v.updateOscillator count spread).oscillator.count
          = max 1 (min 8 (jround count)) ∧
      1 ≤ (v.updateOscillator count spread).oscillator.count ∧
      (v.updateOscillator count spread).oscillator.count ≤ 8 ∧
      (v.updateOscillator count spread).oscillator.spread
          = max 0 (min 50 spread) ∧
      0 ≤ (v.updateOscillator count spread).oscillator.spread ∧
      (v.updateOscillator count spread).oscillator.spread ≤ 50) ∧
    (∀ (v : VoiceWithEffects) (spread : ℚ),
      (v.updateOscillator 12 spread).oscillator.count = 8) ∧
    (∀ (v : VoiceWithEffects) (spread : ℚ),
      (v.updateOscillator 0 spread).oscillator.count = 1) := by
  refine ⟨fun v count spread => ?_, fun v spread => ?_, fun v spread => ?_⟩
  · refine ⟨rfl, le_max_left 1 _, max_le (by norm_num) (min_le_left 8 _),
      rfl, le_max_left 0 _, max_le (by norm_num) (min_le_left 50 _)⟩
  · show max 1 (min 8 (jround 12)) = 8
    norm_num [jround]
  · show max 1 (min 8 (jround 0)) = 1
    norm_num [jround]

/-- C9: `updateEffects` re-applies the delay and reverb settings with
the wet mixes (and delay feedback) scaled by the fixed factor
`wetScale = 0.7`, passing time, decay and pre-delay through unscaled. -/
theorem updateEffects_wet_attenuation :
    (∀ (v : VoiceWithEffects) (p : SynthParams),
      (v.updateEffects p).delay.wet = p.delay.wet * wetScale ∧
      (v.updateEffects p).reverb.wet = p.reverb.wet * wetScale ∧
      (v.updateEffects p).delay.feedback = p.delay.feedback * wetScale ∧
      (v.updateEffects p).delay.delayTime = p.delay.delayTime ∧
      (v.updateEffects p).reverb.decay = p.reverb.decay ∧
      (v.updateEffects p).reverb.preDelay = p.reverb.preDelay) ∧
    wetScale = 7/10 :=
  ⟨fun _ _ => ⟨rfl, rfl, rfl, rfl, rfl, rfl⟩, rfl⟩

/-- C3: an envelope-category edit leaves every already-captured note
snapshot unchanged and only re-sets the stored model and the PolySynth
envelope used for future notes; a note started after the edit captures
the updated model (hence the updated envelope). -/
theorem envelope_edit_future_notes_only (st : EngineState)
    (fld : ParamField) (value : ℚ) (note newNote : String)
    (h : fld.category = Category.envelope) :
    (updateParams st fld value).activeNotes.lookup note
        = st.activeNotes.lookup note ∧
    (updateParams st fld value).polyEnvelope
        = (setField st.params fld value).envelope ∧
    (handleNoteStart (updateParams st fld value) newNote).activeNotes.lookup
        newNote = some (setField st.params fld value) ∧
    (setField st.params fld value).envelope
        = (updateParams st fld value).params.envelope := by
  refine ⟨rfl, ?_, ?_, rfl⟩
  · simp [updateParams, h]
  · simpa [handleNoteStart, updateParams] using
      lookup_mapSet (updateParams st fld value).activeNotes newNote
        (setField st.params fld value)

/-- Witness for C3: an attack edit on the sample engine state leaves the
sounding `'C4'` snapshot unchanged and a following `'E4'` note-on
captures the edited model. -/
theorem envelope_edit_future_notes_only_witness :
    ParamField.category ParamField.envelopeAttack = Category.envelope ∧
    (updateParams sampleEngine ParamField.envelopeAttack (1/2)).activeNotes.lookup
        "C4" = sampleEngine.activeNotes.lookup "C4" ∧
    (handleNoteStart (updateParams sampleEngine ParamField.envelopeAttack (1/2))
        "E4").activeNotes.lookup "E4"
      = some (setField sampleEngine.params ParamField.envelopeAttack (1/2)) := by
  have h := envelope_edit_future_notes_only sampleEngine
    ParamField.envelopeAttack (1/2) "C4" "E4" rfl
  exact ⟨rfl, h.1, h.2.2.1⟩

/-- C2 (corrected): `updateParams` stores the raw edited value into the
model without clamping; only the values pushed into live voices are
sanitized (the per-voice trim is `min(value, 0)`, the applied oscillator
count lies in `[1, 8]`). -/
theorem updateParams_stores_raw_value :
    (∀ (st : EngineState) (fld : ParamField) (v : ℚ),
      getField (updateParams st fld v).params fld = v) ∧
    (∀ (st : EngineState) (v : ℚ),
      (updateParams st ParamField.volumeLevel v).liveVoices
        = st.liveVoices.map (fun vc => vc.updateVolume v)) ∧
    (∀ (vc : VoiceWithEffects) (v : ℚ),
      (vc.updateVolume v).voiceChannelVolume = min v 0 ∧
      (vc.updateVolume v).voiceChannelVolume ≤ 0) ∧
    (∀ (st : EngineState) (v : ℚ),
      (updateParams st ParamField.oscillatorCount v).liveVoices
        = st.liveVoices.map (fun vc =>
            vc.updateOscillator v st.params.oscillator.spread)) ∧
    (∀ (vc : VoiceWithEffects) (c s : ℚ),
      1 ≤ (vc.updateOscillator c s).oscillator.count ∧
      (vc.updateOscillator c s).oscillator.count ≤ 8) := by
  refine ⟨fun st fld v => getField_setField st.params fld v,
    fun st v => rfl, fun vc v => ⟨rfl, min_le_right v 0⟩, fun st v => rfl,
    fun vc c s => ⟨le_max_left 1 _, max_le (by norm_num) (min_le_left 8 _)⟩⟩

/-- Counterexample to C2 as stated: the edit `updateParams('volume',
'level', 10)` stores `10` in the model although the declared range of
`volume.level` is `[-60, 0]` — the stored model is updated with the
unclamped value. -/
theorem updateParams_clamps_counterexample :
    getField (updateParams sampleEngine ParamField.volumeLevel 10).params
        ParamField.volumeLevel = 10 ∧
    fieldRange ParamField.volumeLevel = some (-60, 0) ∧
    ¬ ((10 : ℚ) ≤ 0) := by
  refine ⟨rfl, rfl, by norm_num⟩

/-- C5: when any of the serialized envelope, reverb or delay fields of a
preset record is malformed (`JSON.parse` throws), `handleLoadPreset`
reports the load failure and does not invoke `onLoadPreset`, leaving the
engine's current model unchanged. -/
theorem malformed_preset_load_fails (current : LoadedParams)
    (preset : SynthPresetRec)
    (h : jsonParse preset.envelope = none ∨ jsonParse preset.reverb = none ∨
      jsonParse preset.delay = none) :
    handleLoadPreset preset = Except.error loadErrorMsg ∧
    loadPresetStep current preset = (current, some loadErrorMsg) := by
  have hl : handleLoadPreset preset = Except.error loadErrorMsg := by
    unfold handleLoadPreset
    rcases he : jsonParse preset.envelope with _ | e <;>
      rcases hr : jsonParse preset.reverb with _ | r <;>
        rcases hd : jsonParse preset.delay with _ | d <;>
          simp_all
  exact ⟨hl, by simp [loadPresetStep, hl]⟩

/-- Witness for C5: a preset whose envelope field is malformed fails to
load and the current model survives unchanged. -/
theorem malformed_preset_load_fails_witness :
    jsonParse malformedPreset.envelope = none ∧
    handleLoadPreset malformedPreset = Except.error loadErrorMsg ∧
    loadPresetStep sampleLoaded malformedPreset
      = (sampleLoaded, some loadErrorMsg) := by
  have h := malformed_preset_load_fails sampleLoaded malformedPreset
    (Or.inl rfl)
  exact ⟨rfl, h.1, h.2⟩

/-- C10: every successfully loaded preset carries `volume.level = -12`
regardless of the record's serialized volume field, so saving the
current parameters (volume level `-6`) and loading them back does not
restore the saved volume level. -/
theorem loaded_volume_is_constant :
    (∀ (preset : SynthPresetRec) (p : LoadedParams),
      handleLoadPreset preset = Except.ok p → p.volume.level = -12) ∧
    handleLoadPreset (toRecord 1 (handleSavePreset "roundtrip" sampleParams "pw"))
      = Except.ok
          { envelope := sampleParams.envelope
            reverb := sampleParams.reverb
            delay := sampleParams.delay
            volume := { level := -12 } } ∧
    sampleParams.volume.level = -6 ∧ ((-12 : ℚ) ≠ -6) := by
  refine ⟨?_, rfl, rfl, by norm_num⟩
  intro preset p h
  rcases he : jsonParse preset.envelope with _ | e <;>
    rcases hr : jsonParse preset.reverb with _ | r <;>
      rcases hd : jsonParse preset.delay with _ | d <;>
        simp_all [handleLoadPreset]
  rw [← h]

/-- Witness for C10: the constant-volume property applied to the
concrete saved-and-reloaded record. -/
theorem loaded_volume_is_constant_witness :
    ({ envelope := sampleParams.envelope
       reverb := sampleParams.reverb
       delay := sampleParams.delay
       volume := { level := -12 } } : LoadedParams).volume.level = -12 :=
  loaded_volume_is_constant.1
    (toRecord 1 (handleSavePreset "roundtrip" sampleParams "pw")) _ rfl

/-- C4: the rolloff sanitizer returns the candidate from
`{-12, -24, -48, -96}` at minimum absolute difference from the input,
ties resolved in favor of the earlier candidate in the list's
ascending-magnitude order (the result strictly beats every earlier
candidate it differs from); `-30` maps to `-24` and `-90` to `-96`. -/
theorem snapRolloff_nearest :
    (∀ r : ℚ,
      (snapRolloff r = -12 ∨ snapRolloff r = -24 ∨ snapRolloff r = -48 ∨
        snapRolloff r = -96) ∧
      |snapRolloff r - r| ≤ |(-12 : ℚ) - r| ∧
      |snapRolloff r - r| ≤ |(-24 : ℚ) - r| ∧
      |snapRolloff r - r| ≤ |(-48 : ℚ) - r| ∧
      |snapRolloff r - r| ≤ |(-96 : ℚ) - r| ∧
      (snapRolloff r ≠ -12 → |snapRolloff r - r| < |(-12 : ℚ) - r|) ∧
      (snapRolloff r ≠ -12 → snapRolloff r ≠ -24 →
        |snapRolloff r - r| < |(-24 : ℚ) - r|) ∧
      (snapRolloff r ≠ -12 → snapRolloff r ≠ -24 → snapRolloff r ≠ -48 →
        |snapRolloff r - r| < |(-48 : ℚ) - r|)) ∧
    snapRolloff (-30) = -24 ∧ snapRolloff (-90) = -96 := by
  refine ⟨fun r => ?_,
    by norm_num [snapRolloff, reduce1, validRolloffs, nearestStep],
    by norm_num [snapRolloff, reduce1, validRolloffs, nearestStep]⟩
  have e1 : snapRolloff r
      = nearestStep r (nearestStep r (nearestStep r (-12) (-24)) (-48)) (-96) :=
    rfl
  by_cases h1 : |(-24 : ℚ) - r| < |(-12 : ℚ) - r|
  · have ea : nearestStep r (-12) (-24) = -24 := by
      unfold nearestStep; rw [if_pos h1]
    by_cases h2 : |(-48 : ℚ) - r| < |(-24 : ℚ) - r|
    · have eb : nearestStep r (nearestStep r (-12) (-24)) (-48) = -48 := by
        rw [ea]; unfold nearestStep; rw [if_pos h2]
      by_cases h3 : |(-96 : ℚ) - r| < |(-48 : ℚ) - r|
      · have ec : snapRolloff r = -96 := by
          rw [e1, eb]; unfold nearestStep; rw [if_pos h3]
        rw [ec]
        exact ⟨Or.inr (Or.inr (Or.inr rfl)),
          (h3.trans (h2.trans h1)).le, (h3.trans h2).le, h3.le, le_refl _,
          fun _ => h3.trans (h2.trans h1), fun _ _ => h3.trans h2,
          fun _ _ _ => h3⟩
      · have ec : snapRolloff r = -48 := by
          rw [e1, eb]; unfold nearestStep; rw [if_neg h3]
        rw [ec]
        exact ⟨Or.inr (Or.inr (Or.inl rfl)),
          (h2.trans h1).le, h2.le, le_refl _, not_lt.mp h3,
          fun _ => h2.trans h1, fun _ _ => h2,
          fun _ _ hx => absurd rfl hx⟩
    · have eb : nearestStep r (nearestStep r (-12) (-24)) (-48) = -24 := by
        rw [ea]; unfold nearestStep; rw [if_neg h2]
      by_cases h3 : |(-96 : ℚ) - r| < |(-24 : ℚ) - r|
      · have ec : snapRolloff r = -96 := by
          rw [e1, eb]; unfold nearestStep; rw [if_pos h3]
        rw [ec]
        exact ⟨Or.inr (Or.inr (Or.inr rfl)),
          (h3.trans h1).le, h3.le, (h3.trans_le (not_lt.mp h2)).le, le_refl _,
          fun _ => h3.trans h1, fun _ _ => h3,
          fun _ _ _ => h3.trans_le (not_lt.mp h2)⟩
      · have ec : snapRolloff r = -24 := by
          rw [e1, eb]; unfold nearestStep; rw [if_neg h3]
        rw [ec]
        exact ⟨Or.inr (Or.inl rfl),
          h1.le, le_refl _, not_lt.mp h2, not_lt.mp h3,
          fun _ => h1, fun _ hx => absurd rfl hx,
          fun _ hx _ => absurd rfl hx⟩
  · have ea : nearestStep r (-12) (-24) = -12 := by
      unfold nearestStep; rw [if_neg h1]
    by_cases h2 : |(-48 : ℚ) - r| < |(-12 : ℚ) - r|
    · have eb : nearestStep r (nearestStep r (-12) (-24)) (-48) = -48 := by
        rw [ea]; unfold nearestStep; rw [if_pos h2]
      by_cases h3 : |(-96 : ℚ) - r| < |(-48 : ℚ) - r|
      · have ec : snapRolloff r = -96 := by
          rw [e1, eb]; unfold nearestStep; rw [if_pos h3]
        rw [ec]
        exact ⟨Or.inr (Or.inr (Or.inr rfl)),
          (h3.trans h2).le, ((h3.trans h2).trans_le (not_lt.mp h1)).le,
          h3.le, le_refl _,
          fun _ => h3.trans h2,
          fun _ _ => (h3.trans h2).trans_le (not_lt.mp h1),
          fun _ _ _ => h3⟩
      · have ec : snapRolloff r = -48 := by
          rw [e1, eb]; unfold nearestStep; rw [if_neg h3]
        rw [ec]
        exact ⟨Or.inr (Or.inr (Or.inl rfl)),
          h2.le, (h2.trans_le (not_lt.mp h1)).le, le_refl _, not_lt.mp h3,
          fun _ => h2, fun _ _ => h2.trans_le (not_lt.mp h1),
          fun _ _ hx => absurd rfl hx⟩
    · have eb : nearestStep r (nearestStep r (-12) (-24)) (-48) = -12 := by
        rw [ea]; unfold nearestStep; rw [if_neg h2]
      by_cases h3 : |(-96 : ℚ) - r| < |(-12 : ℚ) - r|
      · have ec : snapRolloff r = -96 := by
          rw [e1, eb]; unfold nearestStep; rw [if_pos h3]
        rw [ec]
        exact ⟨Or.inr (Or.inr (Or.inr rfl)),
          h3.le, (h3.trans_le (not_lt.mp h1)).le,
          (h3.trans_le (not_lt.mp h2)).le, le_refl _,
          fun _ => h3, fun _ _ => h3.trans_le (not_lt.mp h1),
          fun _ _ _ => h3.trans_le (not_lt.mp h2)⟩
      · have ec : snapRolloff r = -12 := by
          rw [e1, eb]; unfold nearestStep; rw [if_neg h3]
        rw [ec]
        exact ⟨Or.inl rfl,
          le_refl _, not_lt.mp h1, not_lt.mp h2, not_lt.mp h3,
          fun hx => absurd rfl hx, fun hx _ => absurd rfl hx,
          fun hx _ _ => absurd rfl hx⟩

/-- Witness for C4: at input `-30` the result `-24` differs from `-12`
and strictly beats it in absolute difference. -/
theorem snapRolloff_nearest_witness :
    snapRolloff (-30) ≠ -12 ∧
    |snapRolloff (-30) - (-30)| < |(-12 : ℚ) - (-30)| := by
  refine ⟨by norm_num [snapRolloff, reduce1, validRolloffs, nearestStep], ?_⟩
  exact (snapRolloff_nearest.1 (-30)).2.2.2.2.2.1
    (by norm_num [snapRolloff, reduce1, validRolloffs, nearestStep])

/-- `freqScale` is the base-2 logarithm of the cutoff ratio `1000`. -/
theorem freqScale_eq : freqScale = Real.logb 2 1000 := by
  unfold freqScale maxFreq minFreq
  norm_num

/-- The exponent scale of the frequency mapping is positive. -/
theorem freqScale_pos : 0 < freqScale := by
  rw [freqScale_eq]
  exact Real.logb_pos (by norm_num) (by norm_num)

/-- The exponential frequency mapping is strictly increasing. -/
theorem normalizedFreq_strictMono : StrictMono normalizedFreq := by
  intro a b hab
  unfold normalizedFreq
  have hmax : (0 : ℝ) < maxFreq := by unfold maxFreq; norm_num
  have hexp : ((a : ℝ) / maxFreq) * freqScale
      < ((b : ℝ) / maxFreq) * freqScale := by
    have hab' : (a : ℝ) < (b : ℝ) := by exact_mod_cast hab
    have := freqScale_pos
    gcongr
  have h2 : (2 : ℝ) ^ (((a : ℝ) / maxFreq) * freqScale)
      < (2 : ℝ) ^ (((b : ℝ) / maxFreq) * freqScale) :=
    (Real.rpow_lt_rpow_left_iff (by norm_num : (1 : ℝ) < 2)).mpr hexp
  have hmin : (0 : ℝ) < minFreq := by unfold minFreq; norm_num
  exact mul_lt_mul_of_pos_left h2 hmin

/-- The mapping sends control value `0` to 20 Hz. -/
theorem normalizedFreq_zero : normalizedFreq 0 = 20 := by
  unfold normalizedFreq minFreq maxFreq
  norm_num

/-- The mapping sends control value `20000` to 20 kHz. -/
theorem normalizedFreq_top : normalizedFreq 20000 = 20000 := by
  have h : normalizedFreq 20000 = 20 * (2 : ℝ) ^ Real.logb 2 1000 := by
    unfold normalizedFreq minFreq maxFreq
    rw [freqScale_eq]
    norm_num
  rw [h, Real.rpow_logb (by norm_num) (by norm_num) (by norm_num)]
  norm_num

/-- C8: `updateFilter` passes the requested frequency through the
exponential mapping `20 * 2 ^ ((f / 20000) * log2(1000))`, which is
strictly increasing, sends `0` to 20 Hz and `20000` to 20 kHz, and stays
inside `[20, 20000]` on inputs from `[0, 20000]`. -/
theorem updateFilter_log_mapping :
    (∀ (v : VoiceWithEffects) (f rolloff : ℚ),
      (v.updateFilter f rolloff).filter.frequency = normalizedFreq f) ∧
    StrictMono normalizedFreq ∧
    normalizedFreq 0 = 20 ∧
    normalizedFreq 20000 = 20000 ∧
    (∀ f : ℚ, 0 ≤ f → f ≤ 20000 →
      20 ≤ normalizedFreq f ∧ normalizedFreq f ≤ 20000) := by
  refine ⟨fun _ _ _ => rfl, normalizedFreq_strictMono, normalizedFreq_zero,
    normalizedFreq_top, fun f h0 h1 => ⟨?_, ?_⟩⟩
  · calc (20 : ℝ) = normalizedFreq 0 := normalizedFreq_zero.symm
    _ ≤ normalizedFreq f := normalizedFreq_strictMono.monotone h0
  · calc normalizedFreq f ≤ normalizedFreq 20000 :=
        normalizedFreq_strictMono.monotone h1
    _ = 20000 := normalizedFreq_top

/-- Witness for C8: the mapping evaluated inside its range at control
value `300`, and strictness between `0` and `1`. -/
theorem updateFilter_log_mapping_witness :
    (20 ≤ normalizedFreq 300 ∧ normalizedFreq 300 ≤ 20000) ∧
    normalizedFreq 0 < normalizedFreq 1 :=
  ⟨updateFilter_log_mapping.2.2.2.2 300 (by norm_num) (by norm_num),
    updateFilter_log_mapping.2.1 (by norm_num : (0 : ℚ) < 1)⟩

end ECMASynth
